import Mathlib

/-!
Verification development for the ADB auto-provision tool (`provision.py`).

The tool polls `adb devices` on a monitor thread, parses the line-oriented
output, reports the device count, and submits one `DeviceWorker` per parsed
device serial to a `QThreadPool` capped at `max_devices`. Each worker runs a
boot-readiness query, a best-effort wake keyevent, and a fixed ordered batch
of two provisioning commands, emitting log events along the way.

The embedding below is a shallow model of that code:
- external process invocations (`subprocess.run`) are represented by an
  environment function giving the outcome of the k-th call a worker makes
  (either a completed process with captured stdout and exit status, or a
  raised exception carried as a message string);
- Qt signal emissions and command invocations are recorded as an ordered
  event trace;
- `r.stdout.splitlines()` output is represented as the resulting list of
  lines.
-/

namespace AdbProvision

/-- Result of a completed `subprocess.run` call: captured stdout text and the
process exit status (`CompletedProcess.returncode`). A non-zero exit status
does not raise in Python, so it is part of the normal result. -/
structure CmdResult where
  stdout : String
  exitCode : Int
deriving Repr, DecidableEq

/-- Outcome of one external `subprocess.run` call: either a completed process
or an exception raised while spawning/running it (e.g. `FileNotFoundError`,
`TimeoutExpired`), carried as its message. -/
inductive CallOutcome
  | ok (r : CmdResult)
  | exn (e : String)
deriving Repr, DecidableEq

/-- Observable events of the system: log signal emissions
(`signals.log.emit`), device-count signal emissions
(`signals.device_count.emit`), attempted external command invocations
(`subprocess.run` argv), and worker submissions to the thread pool. -/
inductive Event
  | log (msg : String)
  | deviceCount (n : Nat)
  | invoke (argv : List String)
  | submit (serial : String)
deriving Repr, DecidableEq

/-- Whether an event is a log emission. -/
def isLogEvent : Event → Bool
  | Event.log _ => true
  | _ => false

/-- Python `str.strip()`: remove leading and trailing whitespace. -/
def pyStrip (s : String) : String :=
  String.mk
    (((s.data.dropWhile Char.isWhitespace).reverse.dropWhile
        Char.isWhitespace).reverse)

/-- Python `str.endswith(suffix)`. -/
def pyEndsWith (s suffix : String) : Bool :=
  suffix.data.isSuffixOf s.data

/-- Python `str.split("\t")` on the character list: split at every tab;
always returns at least one (possibly empty) field. -/
def pySplitTab : List Char → List (List Char)
  | [] => [[]]
  | c :: rest =>
    match pySplitTab rest with
    | [] => [[]]
    | g :: gs => if c = '\t' then [] :: g :: gs else (c :: g) :: gs

/-- The boot-readiness query argv of `DeviceWorker.run`:
`adb -s SERIAL shell getprop sys.boot_completed` (run with timeout 120). -/
def bootQuery (adb serial : String) : List String :=
  [adb, "-s", serial, "shell", "getprop", "sys.boot_completed"]

/-- The wake-device argv of `DeviceWorker.run`:
`adb -s SERIAL shell input keyevent 82`. -/
def wakeCommand (adb serial : String) : List String :=
  [adb, "-s", serial, "shell", "input", "keyevent", "82"]

/-- The fixed ordered provisioning command batch of `DeviceWorker.run`. -/
def provisioningCommands (adb serial : String) : List (List String) :=
  [ [adb, "-s", serial, "shell", "pm", "disable-user",
     "--user", "0", "com.google.android.setupwizard"],
    [adb, "-s", serial, "shell", "am", "broadcast",
     "-a", "android.provider.Telephony.SECRET_CODE",
     "-d", "android_secret_code://ussd"] ]

/-- Result of one `DeviceWorker.run`: the ordered trace of events it
produced, and `some e` when an exception `e` propagated out of `run` into
the thread pool (there is no try/except around the wake step or the
provisioning loop in the source), `none` when `run` returned normally. -/
structure RunResult where
  trace : List Event
  escaped : Option String
deriving Repr, DecidableEq

/-- The provisioning-command loop of `DeviceWorker.run`:
`for cmd in commands: subprocess.run(cmd, capture_output=True)`.
The k-th call of the worker takes its outcome from `env k`; the completed
result is discarded (so exit status is ignored), while a raised exception
stops the loop and propagates. Returns the invocation events and the
escaping exception, if any. -/
def runCommands (env : Nat → CallOutcome) :
    List (List String) → Nat → List Event × Option String
  | [], _ => ([], none)
  | c :: rest, k =>
    match env k with
    | CallOutcome.exn e => ([Event.invoke c], some e)
    | CallOutcome.ok _ =>
      let p := runCommands env rest (k + 1)
      (Event.invoke c :: p.1, p.2)

/-- `DeviceWorker.run` for device `serial` with resolved adb path `adb`.
Call 0 is the boot-readiness query (inside try/except), call 1 the wake
keyevent, calls 2.. the provisioning batch (both outside any try/except). -/
def deviceWorkerRun (adb serial : String) (env : Nat → CallOutcome) :
    RunResult :=
  match env 0 with
  | CallOutcome.exn e =>
    ⟨[Event.log ("[+] Processing " ++ serial),
      Event.invoke (bootQuery adb serial),
      Event.log ("[!] Boot check failed: " ++ e)], none⟩
  | CallOutcome.ok r =>
    if pyStrip r.stdout = "1" then
      match env 1 with
      | CallOutcome.exn e =>
        ⟨[Event.log ("[+] Processing " ++ serial),
          Event.invoke (bootQuery adb serial),
          Event.invoke (wakeCommand adb serial)], some e⟩
      | CallOutcome.ok _ =>
        match runCommands env (provisioningCommands adb serial) 2 with
        | (evs, some e) =>
          ⟨[Event.log ("[+] Processing " ++ serial),
            Event.invoke (bootQuery adb serial),
            Event.invoke (wakeCommand adb serial)] ++ evs, some e⟩
        | (evs, none) =>
          ⟨[Event.log ("[+] Processing " ++ serial),
            Event.invoke (bootQuery adb serial),
            Event.invoke (wakeCommand adb serial)] ++ evs ++
           [Event.log ("[✓] Done " ++ serial)], none⟩
    else
      ⟨[Event.log ("[+] Processing " ++ serial),
        Event.invoke (bootQuery adb serial),
        Event.log ("[!] " ++ serial ++ " boot timeout")], none⟩

/-- The command invocations of a worker run, in order. -/
def invocationsOf (r : RunResult) : List (List String) :=
  r.trace.filterMap (fun e =>
    match e with
    | Event.invoke argv => some argv
    | _ => none)

/-- The per-line readiness test of the enumeration parser in
`MonitorThread.run`: `line.strip().endswith("\tdevice")`. -/
def isReadyRow (line : String) : Bool :=
  pyEndsWith (pyStrip line) "\tdevice"

/-- The per-line serial extraction of the enumeration parser:
`line.split("\t")[0]` (Python `split` always returns a nonempty list, so
index 0 is its head). -/
def serialOf (line : String) : String :=
  String.mk ((pySplitTab line.data).headD [])

/-- The accumulation loop of the enumeration parser:
`for line in lines: if line.strip().endswith("\tdevice"):
devices.append(line.split("\t")[0])`. -/
def parseLoop : List String → List String
  | [] => []
  | line :: rest =>
    if isReadyRow line then serialOf line :: parseLoop rest
    else parseLoop rest

/-- The enumeration parser of `MonitorThread.run` applied to
`r.stdout.splitlines()`: it iterates over `splitlines()[1:]`, i.e. it
unconditionally drops the first line before filtering. -/
def parseDevices (stdoutLines : List String) : List String :=
  parseLoop (stdoutLines.drop 1)

/-- Outcome of one `subprocess.run([adb, "devices"], ...)` enumeration
call: the captured stdout as its list of lines, or a raised exception
carried as its message. -/
inductive EnumResult
  | ok (stdoutLines : List String)
  | err (msg : String)
deriving Repr, DecidableEq

/-- What one iteration of the `while self.running` loop body of
`MonitorThread.run` produces: its emitted events and the `msleep`
duration it ends with. -/
structure CycleOut where
  events : List Event
  sleepMs : Nat
deriving Repr, DecidableEq

/-- One iteration of the monitor loop body, as a function of the
enumeration outcome. On success: parse, emit the device count, submit one
worker per parsed serial, sleep 2000 ms. On an exception anywhere in the
try block: emit the poll-error log and sleep 1000 ms. -/
def monitorCycle (res : EnumResult) : CycleOut :=
  match res with
  | EnumResult.ok lines =>
    ⟨Event.deviceCount (parseDevices lines).length ::
      (parseDevices lines).map Event.submit, 2000⟩
  | EnumResult.err e =>
    ⟨[Event.log ("[!] Poll error: " ++ e)], 1000⟩

/-- The `while self.running` loop of `MonitorThread.run`, processing a
list of successive enumeration outcomes. The loop body never assigns
`self.running`, so the flag it finishes with equals the flag it started
with; when the flag is false the loop exits immediately and processes
nothing. Returns the final flag and the per-cycle outputs. -/
def monitorFold (running : Bool) : List EnumResult → Bool × List CycleOut
  | [] => (running, [])
  | r :: rest =>
    if running then
      ((monitorFold running rest).1,
        monitorCycle r :: (monitorFold running rest).2)
    else (running, [])

/-- State of the worker pool (`QThreadPool` with
`setMaxThreadCount(max_devices)`): the thread-count ceiling, the number of
currently running workers, and the FIFO queue of submitted-but-not-started
workers. Models the documented Qt semantics: `start` runs the runnable at
once when a thread is free and queues it otherwise; a finishing thread
picks up the next queued runnable. -/
structure PoolState where
  maxThreads : Nat
  active : Nat
  queued : List String
deriving Repr, DecidableEq

/-- Pool transitions: a submission of a worker (`threadpool.start`) or the
completion of one running worker. -/
inductive PoolOp
  | start (serial : String)
  | finishOne
deriving Repr, DecidableEq

/-- One pool transition. `start` begins the worker immediately when fewer
than `maxThreads` are active, else appends it to the FIFO queue;
`finishOne` lets a finishing thread take the next queued worker, or just
frees the thread when the queue is empty. -/
def poolStep (s : PoolState) : PoolOp → PoolState
  | PoolOp.start w =>
    if s.active < s.maxThreads then { s with active := s.active + 1 }
    else { s with queued := s.queued ++ [w] }
  | PoolOp.finishOne =>
    match s.queued with
    | [] => { s with active := s.active - 1 }
    | _ :: rest => { s with queued := rest }

/-- The pool as `MonitorThread.__init__` builds it: a fresh `QThreadPool`
with `setMaxThreadCount(n)`, no active or queued workers. -/
def freshPool (n : Nat) : PoolState :=
  ⟨n, 0, []⟩

/-- Apply a sequence of pool transitions. -/
def applyOps (s : PoolState) (ops : List PoolOp) : PoolState :=
  ops.foldl poolStep s

/-- Program counter of the monitor thread inside `MonitorThread.run`,
split at the observable actions of one loop iteration: the
`while self.running` condition check, the enumeration call, the
device-count emission, the per-serial submission loop, the trailing
`msleep`, and the exited state after the loop condition fails. -/
inductive MPc
  | check
  | enumerate
  | emitCount (devices : List String)
  | submitting (devices : List String)
  | sleeping (ms : Nat)
  | exited
deriving Repr, DecidableEq

/-- Program counter of a caller inside `MonitorThread.stop`:
not yet called; after `self.running = False` (the call has begun); after
`self.threadpool.clear()`; and after the trailing
`waitForDone(3000)` / `quit()` / `wait(5000)` sequence returns. -/
inductive SPc
  | idle
  | begun
  | cleared
  | returned
deriving Repr, DecidableEq

/-- Shared state of the monitor thread and a concurrent `stop()` caller:
the `self.running` flag, both program counters, the shared pool, and the
index of the current poll cycle (selecting the enumeration outcome). -/
structure SysState where
  running : Bool
  mpc : MPc
  spc : SPc
  pool : PoolState
  cycle : Nat
deriving Repr, DecidableEq

/-- Events observable in an interleaved execution. -/
inductive SysEvent
  | stopBegun
  | queueCleared
  | stopReturned
  | submitted (serial : String)
  | countEmitted (n : Nat)
  | slept (ms : Nat)
  | loopExited
deriving Repr, DecidableEq

/-- Whether an interleaving event is a worker submission. -/
def isSubmitEvent : SysEvent → Bool
  | SysEvent.submitted _ => true
  | _ => false

/-- One step of the monitor thread, driven by its program counter; `env`
gives the enumeration outcome of each poll cycle. The `msleep` call is a
single atomic step of the full duration: `QThread.msleep` is not
interruptible, so a concurrent change of `self.running` takes effect only
at the next loop-condition check. -/
def monitorStep (env : Nat → EnumResult) (st : SysState) :
    SysState × List SysEvent :=
  match st.mpc with
  | MPc.check =>
    if st.running then ({ st with mpc := MPc.enumerate }, [])
    else ({ st with mpc := MPc.exited }, [SysEvent.loopExited])
  | MPc.enumerate =>
    match env st.cycle with
    | EnumResult.ok lines =>
      ({ st with mpc := MPc.emitCount (parseDevices lines) }, [])
    | EnumResult.err _ =>
      ({ st with mpc := MPc.sleeping 1000 }, [])
  | MPc.emitCount devs =>
    ({ st with mpc := MPc.submitting devs }, [SysEvent.countEmitted devs.length])
  | MPc.submitting [] =>
    ({ st with mpc := MPc.sleeping 2000 }, [])
  | MPc.submitting (d :: rest) =>
    ({ st with
        mpc := MPc.submitting rest
        pool := poolStep st.pool (PoolOp.start d) }, [SysEvent.submitted d])
  | MPc.sleeping ms =>
    ({ st with
        mpc := MPc.check
        cycle := st.cycle + 1 }, [SysEvent.slept ms])
  | MPc.exited => (st, [])

/-- One step of the `stop()` caller: `self.running = False`, then
`self.threadpool.clear()` (discarding every queued-but-not-started
worker), then the bounded waits (`waitForDone(3000)`, `quit()`,
`wait(5000)`) after which `stop()` returns. -/
def stopStep (st : SysState) : SysState × List SysEvent :=
  match st.spc with
  | SPc.idle =>
    ({ st with
        running := false
        spc := SPc.begun }, [SysEvent.stopBegun])
  | SPc.begun =>
    ({ st with
        pool := { st.pool with queued := [] }
        spc := SPc.cleared }, [SysEvent.queueCleared])
  | SPc.cleared =>
    ({ st with spc := SPc.returned }, [SysEvent.stopReturned])
  | SPc.returned => (st, [])

/-- One interleaving step: `true` schedules the monitor thread, `false`
the `stop()` caller. -/
def sysStep (env : Nat → EnumResult) (st : SysState) (choice : Bool) :
    SysState × List SysEvent :=
  if choice then monitorStep env st else stopStep st

/-- Run an interleaving schedule, collecting the event trace. -/
def sysRun (env : Nat → EnumResult) (st : SysState) :
    List Bool → SysState × List SysEvent
  | [] => (st, [])
  | c :: cs =>
    ((sysRun env (sysStep env st c).1 cs).1,
      (sysStep env st c).2 ++ (sysRun env (sysStep env st c).1 cs).2)

/-- Whether the trace contains a worker submission strictly after a
`stopBegun` event. -/
def submitAfterStop : List SysEvent → Bool
  | [] => false
  | SysEvent.stopBegun :: rest => rest.any isSubmitEvent
  | _ :: rest => submitAfterStop rest

/-- Initial state right after `MonitorThread.run` has set
`self.running = True` and emitted the start log, with a pool configured
for `n` concurrent workers and no `stop()` call yet. -/
def sysInit (n : Nat) : SysState :=
  ⟨true, MPc.check, SPc.idle, freshPool n, 0⟩

/-! ## Helper lemmas -/

/-- The parser loop keeps exactly the rows passing the readiness test, in
order, and maps each to its first tab-separated field. -/
theorem parseLoop_eq_filter_map (l : List String) :
    parseLoop l = (l.filter isReadyRow).map serialOf := by
  induction l with
  | nil => rfl
  | cons line rest ih =>
    by_cases h : isReadyRow line
    · simp [parseLoop, List.filter_cons, h, ih]
    · simp [parseLoop, List.filter_cons, h, ih]

/-- When every call completes (no exception), the provisioning-command
loop invokes each command once, in order, and nothing escapes. -/
theorem runCommands_all_ok (f : Nat → CmdResult) (cmds : List (List String)) :
    ∀ k : Nat, runCommands (fun i => CallOutcome.ok (f i)) cmds k =
      (cmds.map Event.invoke, none) := by
  induction cmds with
  | nil => intro k; rfl
  | cons c rest ih => intro k; simp [runCommands, ih (k + 1)]

/-- The wake argv differs from the boot-readiness argv (already by
length: 7 versus 6 elements). -/
theorem wakeCommand_ne_bootQuery (adb serial : String) :
    wakeCommand adb serial ≠ bootQuery adb serial := by
  intro h
  have hl := congrArg List.length h
  simp [wakeCommand, bootQuery] at hl

/-- No provisioning-batch argv equals the boot-readiness argv (already by
length: 9 and 10 versus 6 elements). -/
theorem provisioning_ne_bootQuery (adb serial : String) (c : List String)
    (hc : c ∈ provisioningCommands adb serial) :
    c ≠ bootQuery adb serial := by
  intro h
  have hl := congrArg List.length h
  simp [provisioningCommands] at hc
  rcases hc with rfl | rfl <;> simp [bootQuery] at hl

/-! ## Claims -/

/-- C5: for every enumeration output (a header line followed by the table
rows), exactly the rows whose status field is the ready state are
selected: the emitted `DeviceCountEvent` equals the number of such rows
and exactly one worker submission occurs per selected serial, in row
order. -/
theorem ready_rows_exactly_selected (header : String) (rows : List String) :
    (monitorCycle (EnumResult.ok (header :: rows))).events =
      Event.deviceCount (rows.filter isReadyRow).length ::
        (rows.filter isReadyRow).map (fun l => Event.submit (serialOf l)) ∧
    (monitorCycle (EnumResult.ok (header :: rows))).sleepMs = 2000 := by
  have hp : parseDevices (header :: rows) = (rows.filter isReadyRow).map serialOf := by
    simp [parseDevices, parseLoop_eq_filter_map]
  constructor
  · simp [monitorCycle, hp, List.map_map, Function.comp]
  · rfl

/-- C10: the enumeration parser unconditionally discards the first output
line before filtering: the parse result is independent of the first line,
any output with at most one line parses to the empty device list and
yields count 0 without error, and a ready row placed on the first line is
never selected. -/
theorem first_line_always_dropped (l l' row : String) (rest lines : List String)
    (h1 : lines.length ≤ 1) (h2 : isReadyRow row = true) :
    parseDevices (l :: rest) = parseDevices (l' :: rest) ∧
    parseDevices lines = [] ∧
    monitorCycle (EnumResult.ok lines) = ⟨[Event.deviceCount 0], 2000⟩ ∧
    parseDevices [row] = [] ∧
    (monitorCycle (EnumResult.ok [row])).events = [Event.deviceCount 0] := by
  have hempty : parseDevices lines = [] := by
    match lines, h1 with
    | [], _ => rfl
    | [a], _ => rfl
  refine ⟨rfl, hempty, ?_, rfl, rfl⟩
  simp [monitorCycle, hempty]

/-- C10 witness. -/
theorem first_line_always_dropped_witness :
    parseDevices ["x"] = [] ∧ parseDevices ["A1\tdevice"] = [] :=
  ⟨(first_line_always_dropped "a" "b" "A1\tdevice" [] ["x"]
      (by decide) (by decide)).2.1,
   (first_line_always_dropped "a" "b" "A1\tdevice" [] ["A1\tdevice"]
      (by decide) (by decide)).2.1⟩

/-- C4: every poll cycle whose enumeration raises produces exactly the
poll-error log event and a 1000 ms backoff sleep (half the normal 2000 ms
inter-poll sleep), and no sequence of consecutive enumeration failures
ever clears the running flag: the loop is still running after all of
them. -/
theorem poll_error_backoff_and_loop_persists (errs : List String)
    (lines : List String) :
    monitorFold true (errs.map EnumResult.err) =
      (true, errs.map (fun e =>
        CycleOut.mk [Event.log ("[!] Poll error: " ++ e)] 1000)) ∧
    (monitorCycle (EnumResult.ok lines)).sleepMs = 2000 := by
  constructor
  · induction errs with
    | nil => rfl
    | cons e rest ih => simp [monitorFold, monitorCycle, ih]
  · rfl

/-- C8, counterexample: a malformed enumeration output (no header table,
arbitrary text) parses to zero devices, but the cycle emits no log event
at all — the claimed surfaced, logged error does not exist. -/
theorem malformed_output_no_error_logged :
    monitorCycle (EnumResult.ok ["error: device offline", "garbage output"]) =
      ⟨[Event.deviceCount 0], 2000⟩ ∧
    ((monitorCycle (EnumResult.ok ["error: device offline", "garbage output"])).events.filter
      isLogEvent) = [] := by
  constructor <;> rfl

/-- C8, amended: for every enumeration output in which no row parses as a
ready device, the cycle yields the empty device list and count 0, emits no
log event, sleeps the normal interval, and the loop keeps running; the
parse itself is a total function and never raises. -/
theorem malformed_output_silently_empty (lines : List String)
    (h : parseDevices lines = []) :
    monitorCycle (EnumResult.ok lines) = ⟨[Event.deviceCount 0], 2000⟩ ∧
    ((monitorCycle (EnumResult.ok lines)).events.filter isLogEvent) = [] ∧
    monitorFold true [EnumResult.ok lines] =
      (true, [⟨[Event.deviceCount 0], 2000⟩]) := by
  refine ⟨?_, ?_, ?_⟩ <;> simp [monitorCycle, monitorFold, h, isLogEvent]

/-- C8 witness. -/
theorem malformed_output_silently_empty_witness :
    monitorCycle (EnumResult.ok ["whatever"]) = ⟨[Event.deviceCount 0], 2000⟩ :=
  (malformed_output_silently_empty ["whatever"] (by decide)).1

/-- C2: when the readiness query completes with any value other than the
trimmed ready sentinel "1", the worker emits the boot-timeout log, returns
normally (nothing escapes), and neither the wake keyevent nor any
provisioning command is ever invoked. -/
theorem not_ready_skips_wake_and_commands (adb serial : String)
    (env : Nat → CallOutcome) (r : CmdResult)
    (h : env 0 = CallOutcome.ok r) (hne : pyStrip r.stdout ≠ "1") :
    deviceWorkerRun adb serial env =
      ⟨[Event.log ("[+] Processing " ++ serial),
        Event.invoke (bootQuery adb serial),
        Event.log ("[!] " ++ serial ++ " boot timeout")], none⟩ ∧
    Event.invoke (wakeCommand adb serial) ∉ (deviceWorkerRun adb serial env).trace ∧
    ∀ c ∈ provisioningCommands adb serial,
      Event.invoke c ∉ (deviceWorkerRun adb serial env).trace := by
  have hrun : deviceWorkerRun adb serial env =
      ⟨[Event.log ("[+] Processing " ++ serial),
        Event.invoke (bootQuery adb serial),
        Event.log ("[!] " ++ serial ++ " boot timeout")], none⟩ := by
    unfold deviceWorkerRun
    rw [h]
    simp [hne]
  refine ⟨hrun, ?_, ?_⟩
  · rw [hrun]
    simp [wakeCommand_ne_bootQuery adb serial]
  · intro c hc
    rw [hrun]
    simp [provisioning_ne_bootQuery adb serial c hc]

/-- C2 witness. -/
theorem not_ready_skips_wake_and_commands_witness :
    deviceWorkerRun "adb" "S1" (fun _ => CallOutcome.ok ⟨"0", 0⟩) =
      ⟨[Event.log ("[+] Processing " ++ "S1"),
        Event.invoke (bootQuery "adb" "S1"),
        Event.log ("[!] " ++ "S1" ++ " boot timeout")], none⟩ :=
  (not_ready_skips_wake_and_commands "adb" "S1"
    (fun _ => CallOutcome.ok ⟨"0", 0⟩) ⟨"0", 0⟩ rfl (by decide)).1

/-- C3, counterexample: with the readiness query answering "1" and the
wake keyevent call raising (e.g. a spawn failure once the adb binary has
become unavailable), the exception propagates out of `DeviceWorker.run`
into the pool — the wake step and the provisioning loop are not inside
any try/except. -/
theorem worker_exception_escapes :
    (deviceWorkerRun "adb" "S1"
      (fun k => if k = 0 then CallOutcome.ok ⟨"1", 0⟩
                else CallOutcome.exn "spawn failure")).escaped =
      some "spawn failure" := by
  decide

/-- C3, amended: an exception raised during the readiness check never
escapes the worker: it is caught, logged as a boot-check failure, and the
worker returns early, before the wake step or any provisioning command.
(Exceptions raised during the wake step or a provisioning command are not
caught and do escape.) -/
theorem boot_check_exception_caught (adb serial : String)
    (env : Nat → CallOutcome) (e : String) (h : env 0 = CallOutcome.exn e) :
    deviceWorkerRun adb serial env =
      ⟨[Event.log ("[+] Processing " ++ serial),
        Event.invoke (bootQuery adb serial),
        Event.log ("[!] Boot check failed: " ++ e)], none⟩ := by
  unfold deviceWorkerRun
  rw [h]

/-- C3 witness. -/
theorem boot_check_exception_caught_witness :
    deviceWorkerRun "adb" "S1" (fun _ => CallOutcome.exn "no such file") =
      ⟨[Event.log ("[+] Processing " ++ "S1"),
        Event.invoke (bootQuery "adb" "S1"),
        Event.log ("[!] Boot check failed: " ++ "no such file")], none⟩ :=
  boot_check_exception_caught "adb" "S1"
    (fun _ => CallOutcome.exn "no such file") "no such file" rfl

/-- C6, counterexample: a provisioning command that completes with a
non-zero exit status (a failed command) produces no log event at all —
the only log emissions of the run are the initial processing line and the
final success line, so the claimed per-command failure logging does not
exist. -/
theorem command_failure_not_logged :
    ((deviceWorkerRun "adb" "S1"
        (fun k => if k = 2 then CallOutcome.ok ⟨"", 1⟩
                  else CallOutcome.ok ⟨"1", 0⟩)).trace.filter isLogEvent) =
      [Event.log ("[+] Processing " ++ "S1"),
       Event.log ("[✓] Done " ++ "S1")] ∧
    (deviceWorkerRun "adb" "S1"
      (fun k => if k = 2 then CallOutcome.ok ⟨"", 1⟩
                else CallOutcome.ok ⟨"1", 0⟩)).escaped = none := by
  constructor <;> decide

/-- C6, amended: for a ready device whose external calls all complete (no
exception), each command of the fixed ordered batch is invoked exactly
once, in its fixed order, regardless of the commands' exit statuses; a
command's non-zero exit is silently ignored (not logged) and does not
abort the remaining commands; and exactly one success log event is
emitted, after the whole batch. -/
theorem commands_attempted_once_in_order (adb serial : String)
    (f : Nat → CmdResult) (h : pyStrip (f 0).stdout = "1") :
    deviceWorkerRun adb serial (fun k => CallOutcome.ok (f k)) =
      ⟨Event.log ("[+] Processing " ++ serial) ::
        Event.invoke (bootQuery adb serial) ::
        Event.invoke (wakeCommand adb serial) ::
        ((provisioningCommands adb serial).map Event.invoke ++
          [Event.log ("[✓] Done " ++ serial)]), none⟩ := by
  unfold deviceWorkerRun
  simp [h, runCommands_all_ok]

/-- C6 witness. -/
theorem commands_attempted_once_in_order_witness :
    deviceWorkerRun "adb" "S1" (fun k => CallOutcome.ok ((fun _ => ⟨"1", 0⟩) k)) =
      ⟨Event.log ("[+] Processing " ++ "S1") ::
        Event.invoke (bootQuery "adb" "S1") ::
        Event.invoke (wakeCommand "adb" "S1") ::
        ((provisioningCommands "adb" "S1").map Event.invoke ++
          [Event.log ("[✓] Done " ++ "S1")]), none⟩ :=
  commands_attempted_once_in_order "adb" "S1" (fun _ => ⟨"1", 0⟩) (by decide)

/-- C9: the worker run is a function of the device serial, the resolved
adb path and the external-bridge responses alone — two successive runs
against the same serial that receive the same responses produce the same
command-invocation sequence and the same full trace (no cross-run
state). -/
theorem worker_is_stateless (adb serial : String)
    (env1 env2 : Nat → CallOutcome) (h : ∀ k, env1 k = env2 k) :
    invocationsOf (deviceWorkerRun adb serial env1) =
      invocationsOf (deviceWorkerRun adb serial env2) ∧
    (deviceWorkerRun adb serial env1).trace =
      (deviceWorkerRun adb serial env2).trace := by
  have he : env1 = env2 := funext h
  rw [he]
  exact ⟨rfl, rfl⟩

/-- One pool transition preserves the concurrency bound and the
configured ceiling. -/
theorem poolStep_preserves_bound (s : PoolState) (op : PoolOp)
    (h : s.active ≤ s.maxThreads) :
    (poolStep s op).active ≤ (poolStep s op).maxThreads ∧
    (poolStep s op).maxThreads = s.maxThreads := by
  cases op with
  | start w =>
    by_cases hlt : s.active < s.maxThreads
    · simp [poolStep, hlt]
      omega
    · simp [poolStep, hlt, h]
  | finishOne =>
    cases hq : s.queued with
    | nil => simp [poolStep, hq]; omega
    | cons a rest => simp [poolStep, hq, h]

/-- Any transition sequence from a state within its bound stays within the
original ceiling. -/
theorem applyOps_active_le (ops : List PoolOp) (s : PoolState)
    (h : s.active ≤ s.maxThreads) :
    (applyOps s ops).active ≤ s.maxThreads := by
  induction ops generalizing s with
  | nil => exact h
  | cons op rest ih =>
    have hp := poolStep_preserves_bound s op h
    have := ih (poolStep s op) hp.1
    rw [hp.2] at this
    simpa [applyOps] using this

/-- C1: with the pool configured for `n ≥ 1` concurrent workers as
`MonitorThread.__init__` builds it, no sequence of submissions and
completions — in particular, any number of discovered devices — ever
raises the number of simultaneously running workers above `n`; and a
submission arriving while the pool is full is appended to the queue, with
the number of running workers unchanged. -/
theorem concurrency_never_exceeds_max (n : Nat) (hn : 1 ≤ n)
    (ops : List PoolOp) (s : PoolState) (w : String)
    (hfull : s.maxThreads ≤ s.active) :
    (applyOps (freshPool n) ops).active ≤ n ∧
    poolStep s (PoolOp.start w) = { s with queued := s.queued ++ [w] } := by
  constructor
  · exact applyOps_active_le ops (freshPool n) (Nat.zero_le n)
  · simp [poolStep, Nat.not_lt.mpr hfull]

/-- C1 witness: a pool capped at 1 receives three submissions and one
completion; the active count never exceeded 1 and the excess was
queued. -/
theorem concurrency_never_exceeds_max_witness :
    (applyOps (freshPool 1)
      [PoolOp.start "a", PoolOp.start "b", PoolOp.start "c",
       PoolOp.finishOne]).active ≤ 1 ∧
    poolStep ⟨1, 1, []⟩ (PoolOp.start "b") =
      { (⟨1, 1, []⟩ : PoolState) with queued := [] ++ ["b"] } :=
  ⟨(concurrency_never_exceeds_max 1 (by decide)
      [PoolOp.start "a", PoolOp.start "b", PoolOp.start "c", PoolOp.finishOne]
      ⟨1, 1, []⟩ "b" (by decide)).1,
   (concurrency_never_exceeds_max 1 (by decide)
      [PoolOp.start "a", PoolOp.start "b", PoolOp.start "c", PoolOp.finishOne]
      ⟨1, 1, []⟩ "b" (by decide)).2⟩

/-- C7, counterexample: a concrete interleaving in which the monitor
thread is mid-cycle (it has enumerated two ready devices and submitted the
first) when `stop()` begins and even completes its `clear()`; the monitor
thread then still submits the second device's worker. A new provisioning
task is thus submitted to the pool after `stop()` began, refuting the
claim. -/
theorem submission_after_stop_begins :
    submitAfterStop
      (sysRun (fun _ => EnumResult.ok
          ["List of devices attached", "A\tdevice", "B\tdevice"])
        (sysInit 6) [true, true, true, true, false, false, true]).2 = true ∧
    (sysRun (fun _ => EnumResult.ok
        ["List of devices attached", "A\tdevice", "B\tdevice"])
      (sysInit 6) [true, true, true, true, false, false, true]).2 =
      [SysEvent.countEmitted 2, SysEvent.submitted "A", SysEvent.stopBegun,
       SysEvent.queueCleared, SysEvent.submitted "B"] := by
  constructor <;> decide

/-- C7, amended: `stop()`'s `clear()` discards every queued-but-not-started
worker, and from any state in which the monitor thread is at its
loop-condition check (or already exited) with the running flag cleared, no
schedule ever produces another submission. (A poll cycle already past its
check when `stop()` begins can still submit, as the counterexample shows,
and the inter-poll `msleep` is a single uninterruptible step, so a stop
request takes effect only at the next check.) -/
theorem stop_at_check_halts_submissions (env : Nat → EnumResult)
    (sched : List Bool) (st s2 : SysState)
    (h1 : st.running = false)
    (h2 : st.mpc = MPc.check ∨ st.mpc = MPc.exited)
    (h3 : s2.spc = SPc.begun) :
    ((sysRun env st sched).2.any isSubmitEvent) = false ∧
    (stopStep s2).1.pool.queued = [] := by
  constructor
  · induction sched generalizing st with
    | nil => rfl
    | cons c cs ih =>
      have hstep : ((sysStep env st c).2.any isSubmitEvent) = false ∧
          (sysStep env st c).1.running = false ∧
          ((sysStep env st c).1.mpc = MPc.check ∨
            (sysStep env st c).1.mpc = MPc.exited) := by
        cases c with
        | true =>
          rcases h2 with h2 | h2 <;>
            simp [sysStep, monitorStep, h1, h2, isSubmitEvent]
        | false =>
          cases hst : st.spc <;>
            simp [sysStep, stopStep, hst, h1, h2, isSubmitEvent]
      have hrec := ih (sysStep env st c).1 hstep.2.1 hstep.2.2
      simp [sysRun, List.any_append, hstep.1, hrec]
  · unfold stopStep
    rw [h3]

/-- C7 witness. -/
theorem stop_at_check_halts_submissions_witness :
    ((sysRun (fun _ => EnumResult.err "x")
        ⟨false, MPc.check, SPc.idle, freshPool 1, 0⟩
        [true, false, true]).2.any isSubmitEvent) = false :=
  (stop_at_check_halts_submissions (fun _ => EnumResult.err "x")
    [true, false, true] ⟨false, MPc.check, SPc.idle, freshPool 1, 0⟩
    ⟨true, MPc.check, SPc.begun, ⟨1, 0, ["q"]⟩, 0⟩
    rfl (Or.inl rfl) rfl).1

/-- C9 witness. -/
theorem worker_is_stateless_witness :
    invocationsOf (deviceWorkerRun "adb" "S1" (fun _ => CallOutcome.ok ⟨"1", 0⟩)) =
      invocationsOf (deviceWorkerRun "adb" "S1" (fun _ => CallOutcome.ok ⟨"1", 0⟩)) :=
  (worker_is_stateless "adb" "S1" (fun _ => CallOutcome.ok ⟨"1", 0⟩)
    (fun _ => CallOutcome.ok ⟨"1", 0⟩) (fun _ => rfl)).1

end AdbProvision
